import Mathlib

/-!
# Verification of the room hub in `main.py`

This file gives a shallow embedding of the realtime room hub of the
repository (the global dictionaries `rooms_messages`, `rooms_connections`,
`rooms_owner`, `rooms_banned`, `rooms_user_sockets`, `rooms_user_meta`,
`rooms_deleted` and the handlers `broadcast`, `websocket_endpoint`,
`destroy_room`, `kick_user`, `ban_user`, `new_room`, `chat_room`) and proves
or refutes the claims of the specification against it.

Modelling conventions:
* Python dictionaries become functions `String → Option α`; an absent key is
  `none` (so `d.get(k, v)` is `(m k).getD v` and `d[k]` on an absent key is a
  `KeyError`, modelled by the surrounding control flow).
* Python sets become duplicate-free lists with `set_add` / `filter` as
  `add` / `discard`.
* JSON values are the inductive `JVal`; `json.loads(data)` is an input
  `parsed : Option JVal` (`none` when the parse raises).
* A live websocket is an opaque handle `ConnId := Nat`.  Network effects are
  an output trace: `Output.send c m` for `c.send_json(m)` and
  `Output.close c code` for `c.close(code=code)`.
* A send that raises inside a broadcast loop is modelled by the `fails`
  argument: the set of connections whose `send_json` raises during that pass.
* JSON numbers are modelled as integers (`Int`); Python `float(x)` on a
  string is modelled by integer parsing.  No claim depends on numeric values.
-/

abbrev RoomId := String
abbrev UserId := String
abbrev ConnId := Nat

/-- The authenticated identity resolved from the session cookie:
`users.id, users.username, users.avatar_path` (lines 909-917). -/
structure Auth where
  id : UserId
  username : String
  avatar : String
deriving DecidableEq

/-- A JSON value, the type of inbound payloads and outbound events. -/
inductive JVal where
  | jnull : JVal
  | jbool (b : Bool) : JVal
  | jnum (n : Int) : JVal
  | jstr (s : String) : JVal
  | jarr (xs : List JVal) : JVal
  | jobj (fields : List (String × JVal)) : JVal

/-- One observable network effect of a handler. -/
inductive Output where
  | send (c : ConnId) (m : JVal) : Output
  | close (c : ConnId) (code : Nat) : Output

/-- First binding of a key in a JSON object (Python dict lookup). -/
def lookupField : List (String × JVal) → String → Option JVal
  | [], _ => none
  | (k, v) :: rest, key => if k = key then some v else lookupField rest key

/-- `payload.get(key, dflt)`. -/
def pget (fs : List (String × JVal)) (key : String) (dflt : JVal) : JVal :=
  (lookupField fs key).getD dflt

/-- Python truthiness of a JSON value. -/
def truthy : JVal → Bool
  | .jnull => false
  | .jbool b => b
  | .jnum n => n != 0
  | .jstr s => s != ""
  | .jarr xs => !xs.isEmpty
  | .jobj fs => !fs.isEmpty

/-- Python `float(v)` on a JSON value, `none` when it raises.  Numeric
strings are modelled by integer parsing. -/
def py_float : JVal → Option Int
  | .jnum n => some n
  | .jbool b => some (if b then 1 else 0)
  | .jstr s => s.toInt?
  | _ => none

/-- Whether the `"type"` field of an object equals the string `t`
(`payload.get("type") == t`). -/
def type_is (fs : List (String × JVal)) (t : String) : Bool :=
  match lookupField fs "type" with
  | some (.jstr s) => s == t
  | _ => false

/-- Field projection out of an outbound event. -/
def msg_field (m : JVal) (key : String) : Option JVal :=
  match m with
  | .jobj fs => lookupField fs key
  | _ => none

/-- Checks that an event is a `system` event with the given text. -/
def is_system_text (s : String) (m : JVal) : Bool :=
  (match msg_field m "type" with
   | some (.jstr t) => t == "system"
   | _ => false)
  &&
  (match msg_field m "text" with
   | some (.jstr t) => t == s
   | _ => false)

/-- The `"type"` field of an event as a string, `""` when missing. -/
def msg_type_str (m : JVal) : String :=
  match msg_field m "type" with
  | some (.jstr t) => t
  | _ => ""

/-- Per-user metadata stored in `rooms_user_meta` (line 938). -/
structure Meta where
  username : String
  avatar : String
deriving DecidableEq

/-- Python set `add` on a duplicate-free list. -/
def set_add {α : Type} [DecidableEq α] (x : α) (s : List α) : List α :=
  if x ∈ s then s else s ++ [x]

/-- Point update of a string-keyed map. -/
def setk {α : Type} (m : String → Option α) (k : String) (v : Option α) :
    String → Option α :=
  fun r => if r = k then v else m r

/-- Python `dict.setdefault(k, v)`. -/
def set_default {α : Type} (m : String → Option α) (k : String) (v : α) :
    String → Option α :=
  match m k with
  | some _ => m
  | none => setk m k (some v)

/-- The global in-memory hub state: the seven module-level dictionaries of
`main.py` (lines 42-48). -/
structure Hub where
  rooms_messages : RoomId → Option (List JVal)
  rooms_connections : RoomId → Option (List ConnId)
  rooms_owner : RoomId → Option UserId
  rooms_banned : RoomId → Option (List UserId)
  rooms_user_sockets : RoomId → Option (UserId → Option (List ConnId))
  rooms_user_meta : RoomId → Option (UserId → Option Meta)
  rooms_deleted : List RoomId

attribute [ext] Hub

/-- History of a room as read by the code (`rooms_messages.get(r, [])`). -/
def messagesOf (h : Hub) (r : RoomId) : List JVal :=
  (h.rooms_messages r).getD []

/-- Live connection set of a room (`rooms_connections.get(r, set())`). -/
def connsOf (h : Hub) (r : RoomId) : List ConnId :=
  (h.rooms_connections r).getD []

/-- Ban set of a room (`rooms_banned.get(r, set())`). -/
def bannedOf (h : Hub) (r : RoomId) : List UserId :=
  (h.rooms_banned r).getD []

/-- Socket set of one user in one room
(`rooms_user_sockets.get(r, \x7b\x7d).get(u, set())`). -/
def socketsOf (h : Hub) (r : RoomId) (u : UserId) : List ConnId :=
  (((h.rooms_user_sockets r).getD (fun _ => none)) u).getD []

/-- Metadata of one user in one room (`rooms_user_meta.get(r, \x7b\x7d).get(u)`). -/
def metaOf (h : Hub) (r : RoomId) (u : UserId) : Option Meta :=
  ((h.rooms_user_meta r).getD (fun _ => none)) u

/-- `ensure_room` (lines 194-199): `setdefault` of every per-room map. -/
def ensure_room (h : Hub) (room_id : RoomId) : Hub :=
  { h with
    rooms_messages := set_default h.rooms_messages room_id []
    rooms_connections := set_default h.rooms_connections room_id []
    rooms_banned := set_default h.rooms_banned room_id []
    rooms_user_sockets := set_default h.rooms_user_sockets room_id (fun _ => none)
    rooms_user_meta := set_default h.rooms_user_meta room_id (fun _ => none) }

/-- `broadcast` (lines 202-210): iterate the room's live connection set,
send to each, collect the connections whose send raised in `dead`, and only
after the pass discard each dead connection from the set. -/
def broadcast (h : Hub) (room_id : RoomId) (msg : JVal) (fails : List ConnId) :
    Hub × List Output :=
  let conns := (h.rooms_connections room_id).getD []
  let dead := conns.filter (fun c => c ∈ fails)
  let outs := conns.filterMap
    (fun c => if c ∈ fails then none else some (Output.send c msg))
  if dead.isEmpty then (h, outs)
  else
    let conns2 := some (conns.filter (fun c => c ∉ dead))
    ({ h with rooms_connections := setk h.rooms_connections room_id conns2 }, outs)

/-- A hexadecimal digit. -/
def isHexDigit (c : Char) : Bool :=
  c.isDigit || ('a' ≤ c && c ≤ 'f') || ('A' ≤ c && c ≤ 'F')

/-- Models `uuid.UUID(room_id)` succeeding: the canonical 8-4-4-4-12
hyphenated hexadecimal form. -/
def isUuid (s : String) : Bool :=
  let cs := s.toList
  cs.length == 36 &&
  (List.range 36).all (fun i =>
    let c := cs.getD i ' '
    if i == 8 || i == 13 || i == 18 || i == 23 then c == '-' else isHexDigit c)

/-- The event built for a recognized payload kind (the if-chain of lines
961-1045).  Returns `none` when no branch matched or the matching branch
raised (Python's `except Exception: msg = None`). -/
def classify_payload (payload : JVal) (user : Auth) (ts : String) : Option JVal :=
  match payload with
  | .jobj fs =>
    if type_is fs "message" then
      some (.jobj [("type", .jstr "message"),
        ("text", pget fs "text" (.jstr "")),
        ("enc", pget fs "enc" (.jbool false)),
        ("ct", pget fs "ct" (.jstr "")),
        ("iv", pget fs "iv" (.jstr "")),
        ("salt", pget fs "salt" (.jstr "")),
        ("msg_id", pget fs "msg_id" (.jstr "")),
        ("user_id", .jstr user.id),
        ("username", .jstr user.username),
        ("avatar", .jstr user.avatar),
        ("ts", .jstr ts)])
    else if type_is fs "media" then
      some (.jobj [("type", .jstr "media"),
        ("url", pget fs "url" (.jstr "")),
        ("kind", pget fs "kind" (.jstr "application/octet-stream")),
        ("enc", pget fs "enc" (.jbool false)),
        ("iv", pget fs "iv" (.jstr "")),
        ("salt", pget fs "salt" (.jstr "")),
        ("orig_kind", pget fs "orig_kind" (.jstr "")),
        ("msg_id", pget fs "msg_id" (.jstr "")),
        ("user_id", .jstr user.id),
        ("username", .jstr user.username),
        ("avatar", .jstr user.avatar),
        ("ts", .jstr ts)])
    else if type_is fs "album" then
      some (.jobj [("type", .jstr "album"),
        ("url", pget fs "url" (.jstr "")),
        ("title", pget fs "title" (.jstr "")),
        ("enc", pget fs "enc" (.jbool false)),
        ("ct", pget fs "ct" (.jstr "")),
        ("iv", pget fs "iv" (.jstr "")),
        ("salt", pget fs "salt" (.jstr "")),
        ("msg_id", pget fs "msg_id" (.jstr "")),
        ("user_id", .jstr user.id),
        ("username", .jstr user.username),
        ("avatar", .jstr user.avatar),
        ("ts", .jstr ts)])
    else if type_is fs "location" then
      if truthy (pget fs "enc" .jnull) then
        some (.jobj [("type", .jstr "location"),
          ("enc", .jbool true),
          ("ct", pget fs "ct" (.jstr "")),
          ("iv", pget fs "iv" (.jstr "")),
          ("salt", pget fs "salt" (.jstr "")),
          ("msg_id", pget fs "msg_id" (.jstr "")),
          ("user_id", .jstr user.id),
          ("username", .jstr user.username),
          ("avatar", .jstr user.avatar),
          ("ts", .jstr ts)])
      else
        match py_float (pget fs "lat" (.jnum 0)), py_float (pget fs "lon" (.jnum 0)) with
        | some la, some lo =>
          some (.jobj [("type", .jstr "location"),
            ("lat", .jnum la),
            ("lon", .jnum lo),
            ("msg_id", pget fs "msg_id" (.jstr "")),
            ("user_id", .jstr user.id),
            ("username", .jstr user.username),
            ("avatar", .jstr user.avatar),
            ("ts", .jstr ts)])
        | _, _ => none
    else if type_is fs "typing" then
      some (.jobj [("type", .jstr "typing"),
        ("state", .jbool (truthy (pget fs "state" (.jbool false)))),
        ("user_id", .jstr user.id),
        ("username", .jstr user.username),
        ("ts", .jstr ts)])
    else if type_is fs "read" then
      some (.jobj [("type", .jstr "read"),
        ("msg_id", pget fs "msg_id" (.jstr "")),
        ("user_id", .jstr user.id),
        ("username", .jstr user.username),
        ("ts", .jstr ts)])
    else none
  | _ => none

/-- The event appended and delivered for one inbound text frame `data`
(lines 957-1058): the recognized-kind chain, with the fallback plaintext
`message` carrying the raw payload when parsing raised (`parsed = none`) or
no branch produced an event. -/
def classify (data : String) (parsed : Option JVal) (user : Auth) (ts : String) : JVal :=
  let fb : JVal := .jobj [("type", .jstr "message"),
    ("text", .jstr data),
    ("enc", .jbool false),
    ("user_id", .jstr user.id),
    ("username", .jstr user.username),
    ("avatar", .jstr user.avatar),
    ("ts", .jstr ts)]
  match parsed with
  | none => fb
  | some payload =>
    match classify_payload payload user ts with
    | some m => m
    | none => fb

/-- Whether the parsed payload is an object whose `type` is one of the six
recognized inbound kinds. -/
def recognized_type (v : JVal) : Bool :=
  match v with
  | .jobj fs =>
    type_is fs "message" || type_is fs "media" || type_is fs "album" ||
    type_is fs "location" || type_is fs "typing" || type_is fs "read"
  | _ => false

/-- The `system` joined event (lines 943-950). -/
def joined_msg (user : Auth) (ts : String) : JVal :=
  .jobj [("type", .jstr "system"),
    ("text", .jstr (user.username ++ " entrou na sala")),
    ("ts", .jstr ts)]

/-- The `system` left event (lines 1074-1081). -/
def left_msg (user : Auth) (ts : String) : JVal :=
  .jobj [("type", .jstr "system"),
    ("text", .jstr (user.username ++ " saiu da sala")),
    ("ts", .jstr ts)]

/-- Overwriting one room's connection entry. -/
def set_conns (h : Hub) (room_id : RoomId) (v : List ConnId) : Hub :=
  { h with rooms_connections := setk h.rooms_connections room_id (some v) }

/-- Overwriting one room's user-socket entry. -/
def set_user_sockets (h : Hub) (room_id : RoomId) (inner : UserId → Option (List ConnId)) : Hub :=
  { h with rooms_user_sockets := setk h.rooms_user_sockets room_id (some inner) }

/-- Overwriting one room's user-metadata entry. -/
def set_user_meta (h : Hub) (room_id : RoomId) (inner : UserId → Option Meta) : Hub :=
  { h with rooms_user_meta := setk h.rooms_user_meta room_id (some inner) }

/-- Registration of an accepted socket (lines 936-941): add it to the
room's connection set, add it to the user's socket set, and record the
user's metadata. -/
def join_register (h0 : Hub) (room_id : RoomId) (ws : ConnId) (user : Auth) : Hub :=
  let h1 := set_conns h0 room_id (set_add ws ((h0.rooms_connections room_id).getD []))
  let inner := (h1.rooms_user_sockets room_id).getD (fun _ => none)
  let h2 := set_user_sockets h1 room_id
    (fun uid => if uid = user.id then some (set_add ws ((inner user.id).getD [])) else inner uid)
  let metaInner := (h2.rooms_user_meta room_id).getD (fun _ => none)
  set_user_meta h2 room_id
    (fun uid => if uid = user.id then some (Meta.mk user.username user.avatar) else metaInner uid)

/-- The connection-accept phase of `websocket_endpoint` (lines 898-953):
authentication, room-id validation, `ensure_room`, tombstone and ban
checks, registration in the connection and user-socket sets, metadata
update, the joined broadcast, and the history replay to the new socket. -/
def websocket_connect (h : Hub) (room_id : RoomId) (ws : ConnId)
    (auth : Option Auth) (ts : String) (fails : List ConnId) : Hub × List Output :=
  match auth with
  | none => (h, [Output.close ws 1008])
  | some user =>
    if isUuid room_id then
      let h0 := ensure_room h room_id
      if room_id ∈ h0.rooms_deleted then (h0, [Output.close ws 4100])
      else if user.id ∈ bannedOf h0 room_id then (h0, [Output.close ws 4003])
      else
        let h3 := join_register h0 room_id ws user
        let res := broadcast h3 room_id (joined_msg user ts) fails
        (res.1, res.2 ++ ((res.1.rooms_messages room_id).getD []).map (fun m => Output.send ws m))
    else (h, [Output.close ws 1008])

/-- `rooms_user_sockets.get(room_id, \x7b\x7d).get(user_id, set()).discard(ws)`
(line 1071): the in-place discard mutates the stored set only when both the
room and the user entry are present. -/
def discard_user_socket (h : Hub) (room_id : RoomId) (uid : UserId) (ws : ConnId) : Hub :=
  match h.rooms_user_sockets room_id with
  | none => h
  | some inner =>
    match inner uid with
    | none => h
    | some s =>
      set_user_sockets h room_id
        (fun u => if u = uid then some (s.filter (fun c => c ≠ ws)) else inner u)

/-- `not rooms_user_sockets.get(room_id, \x7b\x7d).get(user_id)` (line 1072):
both a missing entry and an empty set are falsy. -/
def sockets_empty (h : Hub) (room_id : RoomId) (uid : UserId) : Bool :=
  match ((h.rooms_user_sockets room_id).getD (fun _ => none)) uid with
  | none => true
  | some s => s.isEmpty

/-- `rooms_user_meta.get(room_id, \x7b\x7d).pop(user_id, None)` (line 1073). -/
def pop_user_meta (h : Hub) (room_id : RoomId) (uid : UserId) : Hub :=
  match h.rooms_user_meta room_id with
  | none => h
  | some inner => set_user_meta h room_id (fun u => if u = uid then none else inner u)

/-- The shared teardown of the disconnect/error handlers (lines 1069-1081
and 1082-1094) after the connection-set discard: the socket is discarded
from the user's socket set, and when the user's socket set is then missing
or empty, the metadata entry is popped and the left event broadcast. -/
def websocket_leave_core (h1 : Hub) (room_id : RoomId) (ws : ConnId) (user : Auth)
    (ts : String) (fails : List ConnId) : Hub × List Output :=
  let h2 := discard_user_socket h1 room_id user.id ws
  if sockets_empty h2 room_id user.id then
    broadcast (pop_user_meta h2 room_id user.id) room_id (left_msg user ts) fails
  else (h2, [])

/-- The hub after `rooms_connections[room_id].discard(ws)` on the entry
`conns`. -/
def discard_conn (h : Hub) (room_id : RoomId) (conns : List ConnId) (ws : ConnId) : Hub :=
  set_conns h room_id (conns.filter (fun c => c ≠ ws))

/-- Entry of the shared teardown: the `rooms_connections[room_id]` indexing
and the discard of the socket from the connection set. -/
def websocket_leave (h : Hub) (room_id : RoomId) (ws : ConnId) (user : Auth)
    (ts : String) (fails : List ConnId) : Hub × List Output :=
  match h.rooms_connections room_id with
  | none => (h, [])
  | some conns =>
    websocket_leave_core (discard_conn h room_id conns ws) room_id ws user ts fails

/-- The `except WebSocketDisconnect` teardown (lines 1069-1081). -/
def websocket_disconnect (h : Hub) (room_id : RoomId) (ws : ConnId) (user : Auth)
    (ts : String) (fails : List ConnId) : Hub × List Output :=
  websocket_leave h room_id ws user ts fails

/-- One iteration of the receive loop (lines 956-1068): classify the inbound
frame, append the event to `rooms_messages[room_id]`, then the inline
best-effort fan-out (identical to `broadcast`).  When the room's message
entry was popped (room destroyed), the indexing raises and the generic
`except Exception` handler (lines 1082-1098) runs the teardown and closes
the socket with code 1011. -/
def websocket_receive (h : Hub) (room_id : RoomId) (ws : ConnId) (user : Auth)
    (data : String) (parsed : Option JVal) (ts : String) (fails : List ConnId) :
    Hub × List Output :=
  let msg := classify data parsed user ts
  match h.rooms_messages room_id with
  | some hist =>
    let h1 := { h with rooms_messages := setk h.rooms_messages room_id (some (hist ++ [msg])) }
    broadcast h1 room_id msg fails
  | none =>
    match h.rooms_connections room_id with
    | none => (h, [])
    | some _ =>
      let res := websocket_leave h room_id ws user ts fails
      (res.1, res.2 ++ [Output.close ws 1011])

/-- The owner gate of the moderation endpoints
(`if owner_id and owner_id != user["id"]`, lines 795, 817, 833). -/
def owner_forbids (h : Hub) (room_id : RoomId) (caller : UserId) : Bool :=
  match h.rooms_owner room_id with
  | some o => (o != "") && (o != caller)
  | none => false

/-- The destruction body of `destroy_room` (lines 797-810): close every
live connection with code 1000, pop every per-room entry, and add the id to
`rooms_deleted`. -/
def do_destroy (h : Hub) (room_id : RoomId) : Hub × List Output :=
  let outs := ((h.rooms_connections room_id).getD []).map (fun c => Output.close c 1000)
  ({ rooms_messages := setk h.rooms_messages room_id none
     rooms_connections := setk h.rooms_connections room_id none
     rooms_owner := setk h.rooms_owner room_id none
     rooms_banned := setk h.rooms_banned room_id none
     rooms_user_sockets := setk h.rooms_user_sockets room_id none
     rooms_user_meta := setk h.rooms_user_meta room_id none
     rooms_deleted := set_add room_id h.rooms_deleted }, outs)

/-- `destroy_room` (lines 791-810).  `Except Nat` carries the HTTP status
of a raised `HTTPException`. -/
def destroy_room (h : Hub) (room_id : RoomId) (caller : UserId) :
    Except Nat (Hub × List Output) :=
  if owner_forbids h room_id caller then .error 403
  else .ok (do_destroy h room_id)

/-- The body of `kick_user` after the owner gate (lines 819-826):
`ensure_room`, then close all of the target's sockets with code 4000.  No
room state is mutated. -/
def do_kick (h : Hub) (room_id : RoomId) (target : UserId) : Hub × List Output :=
  let h1 := ensure_room h room_id
  (h1, (socketsOf h1 room_id target).map (fun c => Output.close c 4000))

/-- `kick_user` (lines 813-826). -/
def kick_user (h : Hub) (room_id : RoomId) (caller target : UserId) :
    Except Nat (Hub × List Output) :=
  if owner_forbids h room_id caller then .error 403
  else .ok (do_kick h room_id target)

/-- The body of `ban_user` after the owner gate (lines 835-843):
`ensure_room`, add the target to the ban set, then close all of the
target's sockets with code 4003. -/
def do_ban (h : Hub) (room_id : RoomId) (target : UserId) : Hub × List Output :=
  let h1 := ensure_room h room_id
  let banned2 := some (set_add target ((h1.rooms_banned room_id).getD []))
  let h2 := { h1 with rooms_banned := setk h1.rooms_banned room_id banned2 }
  (h2, (socketsOf h2 room_id target).map (fun c => Output.close c 4003))

/-- `ban_user` (lines 829-843). -/
def ban_user (h : Hub) (room_id : RoomId) (caller target : UserId) :
    Except Nat (Hub × List Output) :=
  if owner_forbids h room_id caller then .error 403
  else .ok (do_ban h room_id target)

/-- `new_room` (lines 759-765): a freshly generated id is discarded from
`rooms_deleted` and recorded as owned by the caller. -/
def new_room (h : Hub) (room_id : RoomId) (caller : UserId) : Hub :=
  { h with
    rooms_deleted := h.rooms_deleted.filter (fun r => r ≠ room_id)
    rooms_owner := setk h.rooms_owner room_id (some caller) }

/-- `chat_room` page handler (lines 768-788): `ensure_room` when the id is
a valid uuid and not tombstoned; otherwise no state change. -/
def chat_room (h : Hub) (room_id : RoomId) : Hub :=
  if isUuid room_id then
    if room_id ∈ h.rooms_deleted then h else ensure_room h room_id
  else h

/-- One hub operation: everything that can mutate the hub state. -/
inductive Op where
  | connect (room_id : RoomId) (ws : ConnId) (auth : Option Auth) (ts : String)
      (fails : List ConnId) : Op
  | receive (room_id : RoomId) (ws : ConnId) (user : Auth) (data : String)
      (parsed : Option JVal) (ts : String) (fails : List ConnId) : Op
  | disconnect (room_id : RoomId) (ws : ConnId) (user : Auth) (ts : String)
      (fails : List ConnId) : Op
  | destroy (room_id : RoomId) (caller : UserId) : Op
  | kick (room_id : RoomId) (caller target : UserId) : Op
  | ban (room_id : RoomId) (caller target : UserId) : Op
  | page (room_id : RoomId) : Op
  | newRoom (room_id : RoomId) (caller : UserId) : Op

/-- Interpreting one operation on the hub.  A moderation call rejected by
the owner gate leaves the state unchanged. -/
def step (h : Hub) : Op → Hub × List Output
  | .connect r ws a ts fs => websocket_connect h r ws a ts fs
  | .receive r ws u d p ts fs => websocket_receive h r ws u d p ts fs
  | .disconnect r ws u ts fs => websocket_disconnect h r ws u ts fs
  | .destroy r caller =>
    match destroy_room h r caller with
    | .ok res => res
    | .error _ => (h, [])
  | .kick r c t =>
    match kick_user h r c t with
    | .ok res => res
    | .error _ => (h, [])
  | .ban r c t =>
    match ban_user h r c t with
    | .ok res => res
    | .error _ => (h, [])
  | .page r => (chat_room h r, [])
  | .newRoom r c => (new_room h r c, [])

/-- Running a sequence of operations. -/
def runOps (h : Hub) : List Op → Hub
  | [] => h
  | op :: ops => runOps (step h op).1 ops

/-- The concatenated output trace of a sequence of operations. -/
def runTrace (h : Hub) : List Op → List Output
  | [] => []
  | op :: ops => (step h op).2 ++ runTrace (step h op).1 ops

/-- Whether an operation is a `new_room` registration of this exact id. -/
def isNewRoomFor (op : Op) (r : RoomId) : Bool :=
  match op with
  | .newRoom r2 _ => r2 == r
  | _ => false

/-- Number of deliveries of events satisfying `p` to connection `c` in a
trace. -/
def deliveredCount (t : List Output) (c : ConnId) (p : JVal → Bool) : Nat :=
  (t.filter (fun o =>
    match o with
    | .send c2 m => c2 == c && p m
    | .close _ _ => false)).length

/-- Whether a moderation result is a success. -/
def isOkE {ε α : Type} : Except ε α → Bool
  | .ok _ => true
  | .error _ => false

/-! ### Concrete fixtures used by witnesses and counterexamples -/

/-- A well-formed room id. -/
def R1 : RoomId := "11111111-1111-1111-1111-111111111111"

def aliceA : Auth := ⟨"u1", "alice", "a.png"⟩

def bobA : Auth := ⟨"u2", "bob", "b.png"⟩

/-- The empty hub: the module-level dictionaries at import time. -/
def hub0 : Hub :=
  ⟨fun _ => none, fun _ => none, fun _ => none, fun _ => none,
   fun _ => none, fun _ => none, []⟩

/-- Alice connected on socket 1 in `R1`. -/
def hub1 : Hub := (websocket_connect hub0 R1 1 (some aliceA) "t1" []).1

/-- Alice on socket 1 and Bob on socket 2 in `R1`. -/
def hub2 : Hub := (websocket_connect hub1 R1 2 (some bobA) "t2" []).1

/-- Alice alone in `R1` with one message in the history. -/
def hubH : Hub := (websocket_receive hub1 R1 1 aliceA "hello" none "t3" []).1

/-- Alice with two simultaneous devices (sockets 1 and 2) in `R1`. -/
def hubA2 : Hub := (websocket_connect hub1 R1 2 (some aliceA) "t2" []).1

example : isUuid R1 = true := by decide
example : isUuid "x" = false := by decide
example : connsOf hub1 R1 = [1] := by decide
example : socketsOf hub1 R1 "u1" = [1] := by decide
example : connsOf hub2 R1 = [1, 2] := by decide
example : (metaOf hub2 R1 "u2").isSome = true := by decide
example : (websocket_connect hub1 R1 2 (some aliceA) "t2" []).2 =
    [Output.send 1 (joined_msg aliceA "t2"), Output.send 2 (joined_msg aliceA "t2")] := by
  rfl

/-! ### Helper lemmas -/

lemma setk_self {α : Type} (m : String → Option α) (k : String) (v : Option α) :
    setk m k v k = v := by
  simp [setk]

lemma setk_ne {α : Type} (m : String → Option α) (k r : String) (v : Option α)
    (h : r ≠ k) : setk m k v r = m r := by
  simp [setk, h]

lemma setk_setk {α : Type} (m : String → Option α) (k : String) (v w : Option α) :
    setk (setk m k v) k w = setk m k w := by
  funext r
  by_cases h : r = k <;> simp [setk, h]

lemma set_default_getD {α : Type} (m : String → Option α) (k r : String) (v : α) :
    ((set_default m k v) r).getD v = (m r).getD v := by
  unfold set_default
  cases hm : m k with
  | some a => rfl
  | none =>
    by_cases hr : r = k
    · simp [setk, hr, hm]
    · simp [setk, hr]

lemma mem_set_add_self {α : Type} [DecidableEq α] (x : α) (s : List α) :
    x ∈ set_add x s := by
  unfold set_add
  split
  · assumption
  · simp

lemma mem_set_add_of_mem {α : Type} [DecidableEq α] {x y : α} {s : List α}
    (h : x ∈ s) : x ∈ set_add y s := by
  unfold set_add
  split
  · exact h
  · exact List.mem_append_left _ h

lemma set_add_of_not_mem {α : Type} [DecidableEq α] {x : α} {s : List α}
    (h : x ∉ s) : set_add x s = s ++ [x] := by
  simp [set_add, h]

lemma ensure_room_deleted (h : Hub) (r : RoomId) :
    (ensure_room h r).rooms_deleted = h.rooms_deleted := rfl

lemma ensure_room_owner (h : Hub) (r : RoomId) :
    (ensure_room h r).rooms_owner = h.rooms_owner := rfl

lemma ensure_room_messagesOf (h : Hub) (r r2 : RoomId) :
    messagesOf (ensure_room h r) r2 = messagesOf h r2 := by
  simp only [messagesOf, ensure_room]
  exact set_default_getD _ _ _ _

lemma ensure_room_connsOf (h : Hub) (r r2 : RoomId) :
    connsOf (ensure_room h r) r2 = connsOf h r2 := by
  simp only [connsOf, ensure_room]
  exact set_default_getD _ _ _ _

lemma ensure_room_bannedOf (h : Hub) (r r2 : RoomId) :
    bannedOf (ensure_room h r) r2 = bannedOf h r2 := by
  simp only [bannedOf, ensure_room]
  exact set_default_getD _ _ _ _

lemma ensure_room_socketsOf (h : Hub) (r r2 : RoomId) (u : UserId) :
    socketsOf (ensure_room h r) r2 u = socketsOf h r2 u := by
  simp only [socketsOf, ensure_room]
  rw [set_default_getD _ _ _ _]

lemma ensure_room_metaOf (h : Hub) (r r2 : RoomId) (u : UserId) :
    metaOf (ensure_room h r) r2 u = metaOf h r2 u := by
  simp only [metaOf, ensure_room]
  rw [set_default_getD _ _ _ _]

lemma broadcast_frame (h : Hub) (room : RoomId) (msg : JVal) (fails : List ConnId) :
    (broadcast h room msg fails).1.rooms_messages = h.rooms_messages ∧
    (broadcast h room msg fails).1.rooms_owner = h.rooms_owner ∧
    (broadcast h room msg fails).1.rooms_banned = h.rooms_banned ∧
    (broadcast h room msg fails).1.rooms_user_sockets = h.rooms_user_sockets ∧
    (broadcast h room msg fails).1.rooms_user_meta = h.rooms_user_meta ∧
    (broadcast h room msg fails).1.rooms_deleted = h.rooms_deleted := by
  simp only [broadcast]
  split <;> exact ⟨rfl, rfl, rfl, rfl, rfl, rfl⟩

lemma broadcast_outs (h : Hub) (room : RoomId) (msg : JVal) (fails : List ConnId) :
    (broadcast h room msg fails).2
      = (connsOf h room).filterMap
          (fun c => if c ∈ fails then none else some (Output.send c msg)) := by
  simp only [broadcast, connsOf]
  split <;> rfl

lemma filter_not_mem_dead (conns fails : List ConnId) :
    conns.filter (fun c => c ∉ (conns.filter (fun c => c ∈ fails)))
      = conns.filter (fun c => c ∉ fails) := by
  apply List.filter_congr
  intro x hx
  simp [List.mem_filter, hx]

lemma broadcast_connsOf (h : Hub) (room : RoomId) (msg : JVal) (fails : List ConnId) :
    connsOf (broadcast h room msg fails).1 room
      = (connsOf h room).filter (fun c => c ∉ fails) := by
  simp only [broadcast, connsOf]
  split
  next hempty =>
    rw [eq_comm, List.filter_eq_self]
    intro c hc
    have h2 := List.isEmpty_iff.mp hempty
    have h3 : c ∉ ((h.rooms_connections room).getD []).filter (fun c => c ∈ fails) := by
      rw [h2]
      exact List.not_mem_nil c
    simp only [List.mem_filter, hc, true_and] at h3
    simpa using h3
  next =>
    simp only [setk_self, Option.getD_some]
    exact filter_not_mem_dead _ _



/-! ### C4: broadcast resilience -/

/-- C4: for every broadcast of one event to a room's live connection set, a
send failure on any one connection does not prevent the send being attempted
(and succeeding) on every other connection; failed connections are removed
from the set only after the whole pass, so the post-state connection set is
exactly the original minus the failures; the event is never aborted for the
room, and no other room state is touched. -/
theorem C4_broadcast_isolation (h : Hub) (room : RoomId) (msg : JVal)
    (fails : List ConnId) :
    (∀ c, c ∈ connsOf h room → c ∉ fails →
       Output.send c msg ∈ (broadcast h room msg fails).2) ∧
    connsOf (broadcast h room msg fails).1 room
      = (connsOf h room).filter (fun c => c ∉ fails) ∧
    (∀ r2, messagesOf (broadcast h room msg fails).1 r2 = messagesOf h r2) ∧
    (∀ r2 u2, socketsOf (broadcast h room msg fails).1 r2 u2 = socketsOf h r2 u2) := by
  refine ⟨?_, broadcast_connsOf h room msg fails, ?_, ?_⟩
  · intro c hc hcf
    rw [broadcast_outs]
    exact List.mem_filterMap.mpr ⟨c, hc, by simp [hcf]⟩
  · intro r2
    rw [messagesOf, (broadcast_frame h room msg fails).1, messagesOf]
  · intro r2 u2
    rw [socketsOf, (broadcast_frame h room msg fails).2.2.2.1, socketsOf]

/-- Witness for C4 at a concrete input: in a room with connections 1 and 2
where the send to 2 fails, connection 1 still receives the event and the
post-state set is `[1]`. -/
theorem C4_broadcast_isolation_witness :
    Output.send 1 (joined_msg aliceA "t") ∈
      (broadcast hub2 R1 (joined_msg aliceA "t") [2]).2 ∧
    connsOf (broadcast hub2 R1 (joined_msg aliceA "t") [2]).1 R1
      = (connsOf hub2 R1).filter (fun c => c ∉ [2]) := by
  refine ⟨(C4_broadcast_isolation hub2 R1 (joined_msg aliceA "t") [2]).1 1
    (by decide) (by decide), (C4_broadcast_isolation hub2 R1 (joined_msg aliceA "t") [2]).2.1⟩

/-! ### C2: history is unbounded (code bug) -/

/-- C2 (refuting the capped-history claim as the code stands): one receive
iteration appends the classified event to the room's history and never
evicts anything, so the history length strictly grows with every received
frame — there is no capacity bound anywhere in the code. -/
theorem C2_append_never_evicts (h : Hub) (room : RoomId) (ws : ConnId)
    (user : Auth) (data : String) (parsed : Option JVal) (ts : String)
    (fails : List ConnId) (hist : List JVal)
    (hm : h.rooms_messages room = some hist) :
    messagesOf (websocket_receive h room ws user data parsed ts fails).1 room
      = hist ++ [classify data parsed user ts] ∧
    (messagesOf (websocket_receive h room ws user data parsed ts fails).1 room).length
      = hist.length + 1 := by
  have hmain : messagesOf (websocket_receive h room ws user data parsed ts fails).1 room
      = hist ++ [classify data parsed user ts] := by
    simp only [websocket_receive, hm]
    rw [messagesOf, (broadcast_frame _ _ _ _).1]
    simp [setk_self]
  exact ⟨hmain, by rw [hmain]; simp⟩

/-- Witness for C2: a concrete receive on `hub1` grows the history of `R1`
from 0 to 1 events. -/
theorem C2_append_never_evicts_witness :
    hub1.rooms_messages R1 = some [] ∧
    messagesOf (websocket_receive hub1 R1 1 aliceA "hello" none "t3" []).1 R1
      = [] ++ [classify "hello" none aliceA "t3"] :=
  ⟨rfl, (C2_append_never_evicts hub1 R1 1 aliceA "hello" none "t3" [] [] rfl).1⟩

/-! ### C7: destroy has no NotFound path -/

/-- C7 counterexample: the room `"x"` does not exist in the empty hub (no
owner, no state), yet `destroy_room` succeeds — it does not fail with a
NotFound error — and even tombstones the nonexistent id. -/
theorem C7_counterexample :
    hub0.rooms_owner "x" = none ∧
    hub0.rooms_messages "x" = none ∧
    destroy_room hub0 "x" "u1" = .ok (do_destroy hub0 "x") ∧
    "x" ∈ (do_destroy hub0 "x").1.rooms_deleted := by
  refine ⟨rfl, rfl, rfl, ?_⟩
  decide

/-- C7 amended: `destroy_room` never checks room existence and never fails
with NotFound.  Whenever the owner gate passes (no recorded owner, empty
owner, or the caller is the owner), it succeeds — including on nonexistent
rooms — evicting all connections, clearing the room's entries and
tombstoning the id; the only failure is the 403 owner gate. -/
theorem C7_amended_no_notfound (h : Hub) (room : RoomId) (caller : UserId) :
    (owner_forbids h room caller = false →
       destroy_room h room caller = .ok (do_destroy h room) ∧
       room ∈ (do_destroy h room).1.rooms_deleted ∧
       connsOf (do_destroy h room).1 room = [] ∧
       (do_destroy h room).1.rooms_messages room = none ∧
       (do_destroy h room).1.rooms_owner room = none) ∧
    (owner_forbids h room caller = true →
       destroy_room h room caller = .error 403) := by
  constructor
  · intro hgate
    refine ⟨by simp [destroy_room, hgate],
      show room ∈ set_add room h.rooms_deleted from mem_set_add_self _ _, ?_, ?_, ?_⟩
    · simp [do_destroy, connsOf, setk_self]
    · simp [do_destroy, setk_self]
    · simp [do_destroy, setk_self]
  · intro hgate
    simp [destroy_room, hgate]

/-- Witness for C7 at a concrete input: destroying the nonexistent room
`"y"` in the empty hub succeeds and tombstones it. -/
theorem C7_amended_no_notfound_witness :
    owner_forbids hub0 "y" "u1" = false ∧
    destroy_room hub0 "y" "u1" = .ok (do_destroy hub0 "y") ∧
    "y" ∈ (do_destroy hub0 "y").1.rooms_deleted :=
  ⟨rfl, ((C7_amended_no_notfound hub0 "y" "u1").1 rfl).1,
   ((C7_amended_no_notfound hub0 "y" "u1").1 rfl).2.1⟩

/-! ### C8: close codes -/

/-- C8 counterexample: an unauthenticated connection and a connection to a
malformed room id are both closed with the same code 1008, so the five close
reasons are not pairwise distinct and a client cannot tell these two causes
apart. -/
theorem C8_counterexample :
    (websocket_connect hub0 R1 1 none "t" []).2 = [Output.close 1 1008] ∧
    (websocket_connect hub0 "not-a-uuid" 1 (some aliceA) "t" []).2
      = [Output.close 1 1008] ∧
    (websocket_connect hub0 R1 1 none "t" []).2
      = (websocket_connect hub0 "not-a-uuid" 1 (some aliceA) "t" []).2 :=
  ⟨rfl, rfl, rfl⟩

/-- C8 amended: the close codes for a tombstoned room (4100), a banned user
(4003) and a kicked user (4000) are pairwise distinct and each differs from
1008; but the unauthenticated and invalid-room-id causes share the code 1008
and cannot be told apart. -/
theorem C8_amended (h : Hub) (r : RoomId) (ws : ConnId) (user : Auth) (ts : String)
    (caller target : UserId) :
    ((websocket_connect h r ws none ts []).2 = [Output.close ws 1008]) ∧
    (isUuid r = false →
       (websocket_connect h r ws (some user) ts []).2 = [Output.close ws 1008]) ∧
    (isUuid r = true → r ∈ h.rooms_deleted →
       (websocket_connect h r ws (some user) ts []).2 = [Output.close ws 4100]) ∧
    (isUuid r = true → r ∉ h.rooms_deleted → user.id ∈ bannedOf h r →
       (websocket_connect h r ws (some user) ts []).2 = [Output.close ws 4003]) ∧
    (∀ h2 outs, kick_user h r caller target = .ok (h2, outs) →
       outs = (socketsOf (ensure_room h r) r target).map (fun c => Output.close c 4000)) ∧
    (∀ h2 outs, ban_user h r caller target = .ok (h2, outs) →
       outs = (socketsOf (ensure_room h r) r target).map (fun c => Output.close c 4003)) ∧
    ((1008 : Nat) ≠ 4100 ∧ (1008 : Nat) ≠ 4003 ∧ (1008 : Nat) ≠ 4000 ∧
     (4100 : Nat) ≠ 4003 ∧ (4100 : Nat) ≠ 4000 ∧ (4003 : Nat) ≠ 4000) := by
  refine ⟨rfl, ?_, ?_, ?_, ?_, ?_, by norm_num⟩
  · intro hval
    simp [websocket_connect, hval]
  · intro hval hdel
    have hd2 : r ∈ (ensure_room h r).rooms_deleted := by
      rw [ensure_room_deleted]; exact hdel
    simp [websocket_connect, hval, hd2]
  · intro hval hdel hban
    have hd2 : r ∉ (ensure_room h r).rooms_deleted := by
      rw [ensure_room_deleted]; exact hdel
    have hb2 : user.id ∈ bannedOf (ensure_room h r) r := by
      rw [ensure_room_bannedOf]; exact hban
    simp [websocket_connect, hval, hd2, hb2]
  · intro h2 outs hk
    unfold kick_user at hk
    split at hk
    · exact absurd hk (by simp)
    · simp only [Except.ok.injEq] at hk
      have h2o : outs = (do_kick h r target).2 := by rw [hk]
      rw [h2o]
      rfl
  · intro h2 outs hb
    unfold ban_user at hb
    split at hb
    · exact absurd hb (by simp)
    · simp only [Except.ok.injEq] at hb
      have h2o : outs = (do_ban h r target).2 := by rw [hb]
      rw [h2o]
      rfl

/-- Witness for C8 at concrete inputs: the tombstoned and banned paths with
their distinct codes. -/
theorem C8_amended_witness :
    isUuid R1 = true ∧ R1 ∈ (do_destroy hub0 R1).1.rooms_deleted ∧
    (websocket_connect (do_destroy hub0 R1).1 R1 1 (some aliceA) "t" []).2
      = [Output.close 1 4100] := by
  refine ⟨by decide, by decide, ?_⟩
  exact (C8_amended (do_destroy hub0 R1).1 R1 1 aliceA "t" "u9" "u9").2.2.1
    (by decide) (by decide)

/-! ### C9: permissive fallback for malformed payloads -/

/-- C9: any inbound frame whose parse failed, or whose parsed value is not a
JSON object with a recognized `type` (message, media, album, location,
typing, read), is classified as a plaintext `message` event whose text is
the raw payload string and whose `enc` flag is false — not rejected. -/
theorem C9_fallback (data : String) (parsed : Option JVal) (user : Auth) (ts : String)
    (hmal : ∀ v, parsed = some v → recognized_type v = false) :
    msg_field (classify data parsed user ts) "type" = some (.jstr "message") ∧
    msg_field (classify data parsed user ts) "text" = some (.jstr data) ∧
    msg_field (classify data parsed user ts) "enc" = some (.jbool false) ∧
    msg_field (classify data parsed user ts) "user_id" = some (.jstr user.id) := by
  have hcp : ∀ v, parsed = some v → classify_payload v user ts = none := by
    intro v hv
    have hrec := hmal v hv
    cases v with
    | jobj fs =>
      simp only [recognized_type, Bool.or_eq_false_iff] at hrec
      obtain ⟨⟨⟨⟨⟨h1, h2⟩, h3⟩, h4⟩, h5⟩, h6⟩ := hrec
      simp [classify_payload, h1, h2, h3, h4, h5, h6]
    | jnull => rfl
    | jbool b => rfl
    | jnum n => rfl
    | jstr s => rfl
    | jarr xs => rfl
  cases hp : parsed with
  | none =>
    simp only [classify]
    exact ⟨rfl, rfl, rfl, rfl⟩
  | some v =>
    have hn := hcp v hp
    simp only [classify, hn]
    exact ⟨rfl, rfl, rfl, rfl⟩

/-- Witness for C9 at a concrete input: an object with an unrecognized
`type` is relayed as a plaintext message whose text is the raw frame. -/
theorem C9_fallback_witness :
    recognized_type (.jobj [("type", .jstr "bogus")]) = false ∧
    msg_field (classify "raw payload" (some (.jobj [("type", .jstr "bogus")])) aliceA "t")
      "text" = some (.jstr "raw payload") := by
  refine ⟨by decide, ?_⟩
  exact (C9_fallback "raw payload" (some (.jobj [("type", .jstr "bogus")])) aliceA "t"
    (by intro v hv; injection hv with hv2; rw [← hv2]; decide)).2.1


/-! ### C10: kick and ban do not touch membership state -/

/-- C10: a successful kick closes the target's sockets (code 4000) but
changes no room state at all — connection sets, user-socket sets, user
metadata, histories and ban sets of every room are untouched; a successful
ban additionally adds the target to this room's ban set and changes nothing
else.  The evicted user therefore still appears in membership and presence
until each closed connection's own session teardown runs. -/
theorem C10_kick_ban_frame (h : Hub) (room : RoomId) (caller target : UserId)
    (hgate : owner_forbids h room caller = false) :
    (kick_user h room caller target = .ok (do_kick h room target) ∧
       (∀ r2, messagesOf (do_kick h room target).1 r2 = messagesOf h r2) ∧
       (∀ r2, connsOf (do_kick h room target).1 r2 = connsOf h r2) ∧
       (∀ r2 u2, socketsOf (do_kick h room target).1 r2 u2 = socketsOf h r2 u2) ∧
       (∀ r2 u2, metaOf (do_kick h room target).1 r2 u2 = metaOf h r2 u2) ∧
       (∀ r2, bannedOf (do_kick h room target).1 r2 = bannedOf h r2) ∧
       (do_kick h room target).2
         = (socketsOf h room target).map (fun c => Output.close c 4000)) ∧
    (ban_user h room caller target = .ok (do_ban h room target) ∧
       (∀ r2, messagesOf (do_ban h room target).1 r2 = messagesOf h r2) ∧
       (∀ r2, connsOf (do_ban h room target).1 r2 = connsOf h r2) ∧
       (∀ r2 u2, socketsOf (do_ban h room target).1 r2 u2 = socketsOf h r2 u2) ∧
       (∀ r2 u2, metaOf (do_ban h room target).1 r2 u2 = metaOf h r2 u2) ∧
       bannedOf (do_ban h room target).1 room = set_add target (bannedOf h room) ∧
       (∀ r2, r2 ≠ room → bannedOf (do_ban h room target).1 r2 = bannedOf h r2) ∧
       (do_ban h room target).2
         = (socketsOf h room target).map (fun c => Output.close c 4003)) := by
  constructor
  · refine ⟨by simp [kick_user, hgate], ?_, ?_, ?_, ?_, ?_, ?_⟩
    · exact fun r2 => ensure_room_messagesOf h room r2
    · exact fun r2 => ensure_room_connsOf h room r2
    · exact fun r2 u2 => ensure_room_socketsOf h room r2 u2
    · exact fun r2 u2 => ensure_room_metaOf h room r2 u2
    · exact fun r2 => ensure_room_bannedOf h room r2
    · show (socketsOf (ensure_room h room) room target).map _ = _
      rw [ensure_room_socketsOf]
  · refine ⟨by simp [ban_user, hgate], ?_, ?_, ?_, ?_, ?_, ?_, ?_⟩
    · exact fun r2 => ensure_room_messagesOf h room r2
    · exact fun r2 => ensure_room_connsOf h room r2
    · exact fun r2 u2 => ensure_room_socketsOf h room r2 u2
    · exact fun r2 u2 => ensure_room_metaOf h room r2 u2
    · have hstep : bannedOf (do_ban h room target).1 room
          = set_add target (((ensure_room h room).rooms_banned room).getD []) := by
        show (setk (ensure_room h room).rooms_banned room _ room).getD [] = _
        rw [setk_self, Option.getD_some]
      rw [hstep]
      rw [show ((ensure_room h room).rooms_banned room).getD [] = bannedOf h room from
        ensure_room_bannedOf h room room]
    · intro r2 hr2
      have hstep : bannedOf (do_ban h room target).1 r2
          = ((ensure_room h room).rooms_banned r2).getD [] := by
        show (setk (ensure_room h room).rooms_banned room _ r2).getD [] = _
        rw [setk_ne _ _ _ _ hr2]
      rw [hstep]
      exact ensure_room_bannedOf h room r2
    · show (socketsOf (ensure_room h room) room target).map (fun c => Output.close c 4003) = _
      rw [ensure_room_socketsOf]

/-- Witness for C10 at a concrete input: kicking and banning Bob in `hub2`
leaves his socket set (and all membership state) untouched; the ban adds
him to the ban set. -/
theorem C10_kick_ban_frame_witness :
    owner_forbids hub2 R1 "u1" = false ∧
    socketsOf (do_kick hub2 R1 "u2").1 R1 "u2" = socketsOf hub2 R1 "u2" ∧
    bannedOf (do_ban hub2 R1 "u2").1 R1 = set_add "u2" (bannedOf hub2 R1) := by
  refine ⟨by decide, ?_, ?_⟩
  · exact (C10_kick_ban_frame hub2 R1 "u1" "u2" (by decide)).1.2.2.2.1 R1 "u2"
  · exact (C10_kick_ban_frame hub2 R1 "u1" "u2" (by decide)).2.2.2.2.2.2.1

/-! ### C5: broadcast eviction is not a full leave -/

/-- C5 counterexample: in a room with Alice (socket 1) and Bob (socket 2,
his only one), a broadcast whose send to socket 2 fails evicts socket 2
from the connection set but leaves Bob's user-socket set and metadata in
place and emits no left event — unlike the graceful leave of socket 2,
which empties Bob's socket set and broadcasts the `system` left event. -/
theorem C5_counterexample :
    connsOf (broadcast hub2 R1 (classify "hi" none aliceA "t3") [2]).1 R1 = [1] ∧
    socketsOf (broadcast hub2 R1 (classify "hi" none aliceA "t3") [2]).1 R1 "u2" = [2] ∧
    (metaOf (broadcast hub2 R1 (classify "hi" none aliceA "t3") [2]).1 R1 "u2").isSome
      = true ∧
    deliveredCount (broadcast hub2 R1 (classify "hi" none aliceA "t3") [2]).2 1
      (is_system_text "bob saiu da sala") = 0 ∧
    socketsOf (websocket_disconnect hub2 R1 2 bobA "t4" []).1 R1 "u2" = [] ∧
    (metaOf (websocket_disconnect hub2 R1 2 bobA "t4" []).1 R1 "u2").isSome = false ∧
    deliveredCount (websocket_disconnect hub2 R1 2 bobA "t4" []).2 1
      (is_system_text "bob saiu da sala") = 1 := by
  decide

/-- List helper: discarding the dead connections and then the leaving
socket is the same as discarding the leaving socket alone, when the dead
set is exactly that socket. -/
lemma filter_dead_filter_ne (conns : List ConnId) (c : ConnId) :
    ((conns.filter (fun x => x ∉ conns.filter (fun y => y ∈ [c]))).filter
        (fun x => x ≠ c))
      = conns.filter (fun x => x ≠ c) := by
  rw [List.filter_filter]
  apply List.filter_congr
  intro x hx
  by_cases hxc : x = c
  · subst hxc
    simp
  · simp [List.mem_filter, hxc]


lemma websocket_leave_eq_core (h : Hub) (room : RoomId) (c : ConnId) (user : Auth)
    (ts : String) (fails2 : List ConnId) (conns : List ConnId)
    (hconn : h.rooms_connections room = some conns) :
    websocket_leave h room c user ts fails2
      = websocket_leave_core (discard_conn h room conns c) room c user ts fails2 := by
  unfold websocket_leave
  rw [hconn]

lemma broadcast_state_of_dead (h : Hub) (room : RoomId) (msg : JVal)
    (fails : List ConnId) (conns : List ConnId)
    (hconn : h.rooms_connections room = some conns)
    (hdead : (conns.filter (fun x => x ∈ fails)).isEmpty = false) :
    (broadcast h room msg fails).1
      = set_conns h room (conns.filter (fun x => x ∉ conns.filter (fun y => y ∈ fails))) := by
  simp only [broadcast, hconn, Option.getD_some]
  rw [if_neg (by simp [hdead])]
  rfl

lemma discard_conn_after_evict (h : Hub) (room : RoomId) (c : ConnId)
    (conns : List ConnId) :
    discard_conn (set_conns h room (conns.filter (fun x => x ∉ conns.filter (fun y => y ∈ [c]))))
      room (conns.filter (fun x => x ∉ conns.filter (fun y => y ∈ [c]))) c
    = discard_conn h room conns c := by
  unfold discard_conn set_conns
  congr 1
  rw [setk_setk, filter_dead_filter_ne]

/-- C5 amended: a connection evicted because a broadcast send to it failed
is removed only from the room's connection set — its user-socket set, the
user metadata and presence are untouched, and the eviction pass emits no
`system` left event (it emits nothing but the event being broadcast).  The
full leave semantics happens only when that connection's own disconnect
teardown later runs: running the teardown after the eviction produces
exactly the same state and outputs as a graceful leave from the
pre-broadcast state. -/
theorem C5_amended (h : Hub) (room : RoomId) (m : JVal) (c : ConnId) (user : Auth)
    (ts : String) (fails2 : List ConnId) :
    (∀ r2 u2, socketsOf (broadcast h room m [c]).1 r2 u2 = socketsOf h r2 u2) ∧
    (∀ r2 u2, metaOf (broadcast h room m [c]).1 r2 u2 = metaOf h r2 u2) ∧
    (∀ o ∈ (broadcast h room m [c]).2, ∃ c2, o = Output.send c2 m) ∧
    websocket_leave (broadcast h room m [c]).1 room c user ts fails2
      = websocket_leave h room c user ts fails2 := by
  refine ⟨?_, ?_, ?_, ?_⟩
  · intro r2 u2
    rw [socketsOf, (broadcast_frame h room m [c]).2.2.2.1, socketsOf]
  · intro r2 u2
    rw [metaOf, (broadcast_frame h room m [c]).2.2.2.2.1, metaOf]
  · intro o ho
    rw [broadcast_outs] at ho
    obtain ⟨x, hx, hfx⟩ := List.mem_filterMap.mp ho
    by_cases hxf : x ∈ [c]
    · rw [if_pos hxf] at hfx
      exact absurd hfx (by simp)
    · rw [if_neg hxf] at hfx
      exact ⟨x, (Option.some.inj hfx).symm⟩
  · cases hconn : h.rooms_connections room with
    | none =>
      have hb : (broadcast h room m [c]).1 = h := by
        simp [broadcast, hconn]
      rw [hb]
    | some conns =>
      cases hdead : (conns.filter (fun x => x ∈ [c])).isEmpty with
      | true =>
        have hb : (broadcast h room m [c]).1 = h := by
          simp only [broadcast, hconn, Option.getD_some]
          rw [if_pos hdead]
        rw [hb]
      | false =>
        have hb := broadcast_state_of_dead h room m [c] conns hconn hdead
        have hconn2 : (broadcast h room m [c]).1.rooms_connections room
            = some (conns.filter (fun x => x ∉ conns.filter (fun y => y ∈ [c]))) := by
          rw [hb]
          exact setk_self _ _ _
        rw [websocket_leave_eq_core _ room c user ts fails2 _ hconn2,
            websocket_leave_eq_core h room c user ts fails2 conns hconn,
            hb, discard_conn_after_evict]

/-- Witness for C5 at a concrete input: evicting Bob's failed socket 2 from
`hub2` leaves his socket set intact, and his later teardown equals a
graceful leave of the original state. -/
theorem C5_amended_witness :
    socketsOf (broadcast hub2 R1 (classify "hi" none aliceA "t3") [2]).1 R1 "u2"
      = socketsOf hub2 R1 "u2" ∧
    websocket_leave (broadcast hub2 R1 (classify "hi" none aliceA "t3") [2]).1
        R1 2 bobA "t4" []
      = websocket_leave hub2 R1 2 bobA "t4" [] :=
  ⟨(C5_amended hub2 R1 (classify "hi" none aliceA "t3") 2 bobA "t4" []).1 R1 "u2",
   (C5_amended hub2 R1 (classify "hi" none aliceA "t3") 2 bobA "t4" []).2.2.2⟩

/-! ### C6: history replay on join -/

lemma join_register_messages (h0 : Hub) (room : RoomId) (ws : ConnId) (user : Auth) :
    (join_register h0 room ws user).rooms_messages = h0.rooms_messages := rfl

lemma join_register_deleted (h0 : Hub) (room : RoomId) (ws : ConnId) (user : Auth) :
    (join_register h0 room ws user).rooms_deleted = h0.rooms_deleted := rfl

lemma join_register_connsOf (h0 : Hub) (room : RoomId) (ws : ConnId) (user : Auth) :
    connsOf (join_register h0 room ws user) room = set_add ws (connsOf h0 room) := by
  show (setk h0.rooms_connections room (some (set_add ws ((h0.rooms_connections room).getD []))) room).getD [] = _
  rw [setk_self, Option.getD_some, connsOf]

lemma broadcast_outs_nil (h : Hub) (room : RoomId) (msg : JVal) :
    (broadcast h room msg []).2 = (connsOf h room).map (fun c => Output.send c msg) := by
  rw [broadcast_outs]
  have hfn : (fun c => if c ∈ ([] : List ConnId) then none else some (Output.send c msg))
      = fun c => some (Output.send c msg) := by
    funext c
    simp
  rw [hfn]
  exact List.filterMap_eq_map _ ▸ rfl

lemma websocket_connect_success (h : Hub) (room : RoomId) (ws : ConnId) (user : Auth)
    (ts : String) (fails : List ConnId)
    (hval : isUuid room = true) (hdel : room ∉ h.rooms_deleted)
    (hban : user.id ∉ bannedOf h room) :
    websocket_connect h room ws (some user) ts fails
      = ((broadcast (join_register (ensure_room h room) room ws user) room (joined_msg user ts) fails).1,
         (broadcast (join_register (ensure_room h room) room ws user) room (joined_msg user ts) fails).2
           ++ (messagesOf h room).map (fun m => Output.send ws m)) := by
  have hd2 : room ∉ (ensure_room h room).rooms_deleted := by
    rw [ensure_room_deleted]
    exact hdel
  have hb2 : user.id ∉ bannedOf (ensure_room h room) room := by
    rw [ensure_room_bannedOf]
    exact hban
  have hmsg : ((broadcast (join_register (ensure_room h room) room ws user) room
        (joined_msg user ts) fails).1.rooms_messages room).getD [] = messagesOf h room := by
    rw [(broadcast_frame _ _ _ _).1, join_register_messages]
    exact ensure_room_messagesOf h room room
  simp only [websocket_connect]
  rw [if_pos hval, if_neg hd2, if_neg hb2, hmsg]

/-- C6: a successful join sends the joining connection the room's entire
current history, in original append order and addressed to it alone (the
only other outputs of the join are the sends of the joined `system` event),
and the join's whole trace — replay included — precedes the trace of every
operation that follows it in the run. -/
theorem C6_history_replay (h : Hub) (room : RoomId) (ws : ConnId) (user : Auth)
    (ts : String) (fails : List ConnId) (ops : List Op)
    (hval : isUuid room = true) (hdel : room ∉ h.rooms_deleted)
    (hban : user.id ∉ bannedOf h room) :
    (∃ t0, (websocket_connect h room ws (some user) ts fails).2
        = t0 ++ (messagesOf h room).map (fun m => Output.send ws m) ∧
      ∀ o ∈ t0, ∃ c2, o = Output.send c2 (joined_msg user ts)) ∧
    runTrace h (Op.connect room ws (some user) ts fails :: ops)
      = (websocket_connect h room ws (some user) ts fails).2
        ++ runTrace (websocket_connect h room ws (some user) ts fails).1 ops := by
  constructor
  · refine ⟨(broadcast (join_register (ensure_room h room) room ws user) room
      (joined_msg user ts) fails).2, ?_, ?_⟩
    · rw [websocket_connect_success h room ws user ts fails hval hdel hban]
    · intro o ho
      rw [broadcast_outs] at ho
      obtain ⟨x, hx, hfx⟩ := List.mem_filterMap.mp ho
      by_cases hxf : x ∈ fails
      · rw [if_pos hxf] at hfx
        exact absurd hfx (by simp)
      · rw [if_neg hxf] at hfx
        exact ⟨x, (Option.some.inj hfx).symm⟩
  · rfl

/-- Witness for C6 at a concrete input: Bob joins `R1` after one message
was posted, and his join trace ends with exactly that history sent to him. -/
theorem C6_history_replay_witness :
    isUuid R1 = true ∧
    (∃ t0, (websocket_connect hubH R1 2 (some bobA) "t5" []).2
        = t0 ++ (messagesOf hubH R1).map (fun m => Output.send 2 m) ∧
      ∀ o ∈ t0, ∃ c2, o = Output.send c2 (joined_msg bobA "t5")) :=
  ⟨by decide,
   (C6_history_replay hubH R1 2 bobA "t5" [] [] (by decide) (by decide) (by decide)).1⟩

/-! ### C3: tombstone persistence -/

lemma websocket_connect_deleted (h : Hub) (room : RoomId) (ws : ConnId)
    (a : Option Auth) (ts : String) (fails : List ConnId) :
    (websocket_connect h room ws a ts fails).1.rooms_deleted = h.rooms_deleted := by
  cases a with
  | none => rfl
  | some user =>
    simp only [websocket_connect]
    by_cases hval : isUuid room = true
    · rw [if_pos hval]
      by_cases hdel : room ∈ (ensure_room h room).rooms_deleted
      · rw [if_pos hdel]
        rfl
      · rw [if_neg hdel]
        by_cases hban : user.id ∈ bannedOf (ensure_room h room) room
        · rw [if_pos hban]
          rfl
        · rw [if_neg hban]
          show (broadcast (join_register (ensure_room h room) room ws user) room
            (joined_msg user ts) fails).1.rooms_deleted = _
          rw [(broadcast_frame _ _ _ _).2.2.2.2.2, join_register_deleted]
          rfl
    · rw [if_neg hval]

lemma discard_user_socket_connections (h : Hub) (room : RoomId) (uid : UserId)
    (ws : ConnId) :
    (discard_user_socket h room uid ws).rooms_connections = h.rooms_connections := by
  unfold discard_user_socket
  split
  · rfl
  · split
    · rfl
    · rfl

lemma discard_user_socket_deleted (h : Hub) (room : RoomId) (uid : UserId)
    (ws : ConnId) :
    (discard_user_socket h room uid ws).rooms_deleted = h.rooms_deleted := by
  unfold discard_user_socket
  split
  · rfl
  · split
    · rfl
    · rfl

lemma pop_user_meta_connections (h : Hub) (room : RoomId) (uid : UserId) :
    (pop_user_meta h room uid).rooms_connections = h.rooms_connections := by
  unfold pop_user_meta
  split
  · rfl
  · rfl

lemma pop_user_meta_deleted (h : Hub) (room : RoomId) (uid : UserId) :
    (pop_user_meta h room uid).rooms_deleted = h.rooms_deleted := by
  unfold pop_user_meta
  split
  · rfl
  · rfl

lemma websocket_leave_core_deleted (h1 : Hub) (room : RoomId) (ws : ConnId)
    (user : Auth) (ts : String) (fails : List ConnId) :
    (websocket_leave_core h1 room ws user ts fails).1.rooms_deleted = h1.rooms_deleted := by
  simp only [websocket_leave_core]
  split
  · rw [(broadcast_frame _ _ _ _).2.2.2.2.2, pop_user_meta_deleted,
      discard_user_socket_deleted]
  · rw [discard_user_socket_deleted]

lemma websocket_leave_deleted (h : Hub) (room : RoomId) (ws : ConnId) (user : Auth)
    (ts : String) (fails : List ConnId) :
    (websocket_leave h room ws user ts fails).1.rooms_deleted = h.rooms_deleted := by
  unfold websocket_leave
  cases h.rooms_connections room with
  | none => rfl
  | some conns =>
    rw [websocket_leave_core_deleted]
    rfl

lemma websocket_receive_deleted (h : Hub) (room : RoomId) (ws : ConnId) (user : Auth)
    (data : String) (parsed : Option JVal) (ts : String) (fails : List ConnId) :
    (websocket_receive h room ws user data parsed ts fails).1.rooms_deleted
      = h.rooms_deleted := by
  simp only [websocket_receive]
  cases h.rooms_messages room with
  | some hist =>
    rw [(broadcast_frame _ _ _ _).2.2.2.2.2]
  | none =>
    cases h.rooms_connections room with
    | none => rfl
    | some conns =>
      show (websocket_leave h room ws user ts fails).1.rooms_deleted = _
      rw [websocket_leave_deleted]

/-- Tombstone persistence over one operation: every operation other than a
`new_room` registration of the very same id keeps a deleted id deleted. -/
lemma step_deleted_persist (h : Hub) (op : Op) (r : RoomId)
    (hr : r ∈ h.rooms_deleted) (hop : isNewRoomFor op r = false) :
    r ∈ (step h op).1.rooms_deleted := by
  cases op with
  | connect room ws a ts fs =>
    show r ∈ (websocket_connect h room ws a ts fs).1.rooms_deleted
    rw [websocket_connect_deleted]
    exact hr
  | receive room ws u d p ts fs =>
    show r ∈ (websocket_receive h room ws u d p ts fs).1.rooms_deleted
    rw [websocket_receive_deleted]
    exact hr
  | disconnect room ws u ts fs =>
    show r ∈ (websocket_leave h room ws u ts fs).1.rooms_deleted
    rw [websocket_leave_deleted]
    exact hr
  | destroy room caller =>
    show r ∈ (match destroy_room h room caller with
      | .ok res => res
      | .error _ => (h, [])).1.rooms_deleted
    by_cases hg : owner_forbids h room caller = true
    · rw [show destroy_room h room caller = .error 403 from by simp [destroy_room, hg]]
      exact hr
    · rw [show destroy_room h room caller = .ok (do_destroy h room) from by
        simp [destroy_room, hg]]
      exact mem_set_add_of_mem hr
  | kick room c t =>
    show r ∈ (match kick_user h room c t with
      | .ok res => res
      | .error _ => (h, [])).1.rooms_deleted
    by_cases hg : owner_forbids h room c = true
    · rw [show kick_user h room c t = .error 403 from by simp [kick_user, hg]]
      exact hr
    · rw [show kick_user h room c t = .ok (do_kick h room t) from by simp [kick_user, hg]]
      exact hr
  | ban room c t =>
    show r ∈ (match ban_user h room c t with
      | .ok res => res
      | .error _ => (h, [])).1.rooms_deleted
    by_cases hg : owner_forbids h room c = true
    · rw [show ban_user h room c t = .error 403 from by simp [ban_user, hg]]
      exact hr
    · rw [show ban_user h room c t = .ok (do_ban h room t) from by simp [ban_user, hg]]
      exact hr
  | page room =>
    show r ∈ (chat_room h room).rooms_deleted
    unfold chat_room
    by_cases hval : isUuid room = true
    · rw [if_pos hval]
      by_cases hd : room ∈ h.rooms_deleted
      · rw [if_pos hd]
        exact hr
      · rw [if_neg hd]
        exact hr
    · rw [if_neg hval]
      exact hr
  | newRoom room caller =>
    show r ∈ (new_room h room caller).rooms_deleted
    have hne : r ≠ room := by
      intro he
      rw [isNewRoomFor] at hop
      subst he
      simp at hop
    exact List.mem_filter.mpr ⟨hr, by simp [hne]⟩

/-- Tombstone persistence over any operation sequence. -/
lemma runOps_deleted_persist (h : Hub) (ops : List Op) (r : RoomId)
    (hr : r ∈ h.rooms_deleted) (hops : ∀ op ∈ ops, isNewRoomFor op r = false) :
    r ∈ (runOps h ops).rooms_deleted := by
  induction ops generalizing h with
  | nil => exact hr
  | cons op ops2 ih =>
    exact ih (step h op).1
      (step_deleted_persist h op r hr (hops op (List.mem_cons_self op ops2)))
      (fun o ho => hops o (List.mem_cons_of_mem _ ho))

/-- A join attempt on a tombstoned (and well-formed) room id is closed with
code 4100 and the state change is the `ensure_room` materialization only. -/
lemma websocket_connect_tombstoned (h : Hub) (room : RoomId) (ws : ConnId)
    (user : Auth) (ts : String) (fails : List ConnId)
    (hval : isUuid room = true) (hdel : room ∈ h.rooms_deleted) :
    websocket_connect h room ws (some user) ts fails
      = (ensure_room h room, [Output.close ws 4100]) := by
  have hd2 : room ∈ (ensure_room h room).rooms_deleted := by
    rw [ensure_room_deleted]
    exact hdel
  simp only [websocket_connect]
  rw [if_pos hval, if_pos hd2]

/-- C3 counterexample: `destroy_room` accepts the malformed id `"x"` and
tombstones it, but a later join attempt with that exact id is closed with
the invalid-room code 1008, not the room-tombstoned code 4100 — the claim's
"rejected with the room-tombstoned close reason" fails for ids that do not
pass the uuid check. -/
theorem C3_counterexample :
    destroy_room hub0 "x" "u1" = .ok (do_destroy hub0 "x") ∧
    "x" ∈ (do_destroy hub0 "x").1.rooms_deleted ∧
    (websocket_connect (do_destroy hub0 "x").1 "x" 1 (some aliceA) "t" []).2
      = [Output.close 1 1008] ∧
    (1008 : Nat) ≠ 4100 := by
  refine ⟨rfl, by decide, rfl, by norm_num⟩

/-- C3 amended: for a room id that passes the uuid format check, once the
id is tombstoned it stays tombstoned across every later operation sequence
in which `new_room` never draws that exact id again (uuid4 freshness), and
every join attempt with it in any such state is closed with code 4100 and
adds no connection — the room is never recreated as joinable. -/
theorem C3_amended (h : Hub) (ops : List Op) (r : RoomId) (ws : ConnId) (user : Auth)
    (ts : String) (fails : List ConnId)
    (hdel : r ∈ h.rooms_deleted) (hval : isUuid r = true)
    (hfresh : ∀ op ∈ ops, isNewRoomFor op r = false) :
    r ∈ (runOps h ops).rooms_deleted ∧
    (websocket_connect (runOps h ops) r ws (some user) ts fails).2
      = [Output.close ws 4100] ∧
    connsOf (websocket_connect (runOps h ops) r ws (some user) ts fails).1 r
      = connsOf (runOps h ops) r := by
  have hpersist := runOps_deleted_persist h ops r hdel hfresh
  have hrej := websocket_connect_tombstoned (runOps h ops) r ws user ts fails hval hpersist
  refine ⟨hpersist, ?_, ?_⟩
  · rw [hrej]
  · rw [hrej]
    exact ensure_room_connsOf _ r r

/-- Witness for C3 at a concrete input: after destroying `R1` and a page
visit, Bob's join attempt is closed with 4100. -/
theorem C3_amended_witness :
    R1 ∈ (do_destroy hub0 R1).1.rooms_deleted ∧ isUuid R1 = true ∧
    (websocket_connect (runOps (do_destroy hub0 R1).1 [Op.page R1]) R1 3 (some bobA)
        "t" []).2 = [Output.close 3 4100] := by
  refine ⟨by decide, by decide, ?_⟩
  exact (C3_amended (do_destroy hub0 R1).1 [Op.page R1] R1 3 bobA "t" []
    (by decide) (by decide)
    (by
      intro op hop
      rw [List.mem_singleton] at hop
      subst hop
      rfl)).2.1

/-! ### C1: join/leave system events -/

lemma deliveredCount_cons_send (c2 : ConnId) (m : JVal) (t : List Output) (c : ConnId)
    (p : JVal → Bool) :
    deliveredCount (Output.send c2 m :: t) c p
      = (if c2 == c && p m then 1 else 0) + deliveredCount t c p := by
  simp only [deliveredCount, List.filter_cons]
  by_cases hb : (c2 == c && p m) = true
  · simp [hb, Nat.add_comm]
  · simp [hb]

lemma deliveredCount_append (t1 t2 : List Output) (c : ConnId) (p : JVal → Bool) :
    deliveredCount (t1 ++ t2) c p = deliveredCount t1 c p + deliveredCount t2 c p := by
  simp [deliveredCount, List.filter_append]

lemma deliveredCount_map_send_zero (conns : List ConnId) (msg : JVal) (c : ConnId)
    (p : JVal → Bool) (hc : c ∉ conns) :
    deliveredCount (conns.map (fun x => Output.send x msg)) c p = 0 := by
  induction conns with
  | nil => rfl
  | cons a as ih =>
    rw [List.map_cons, deliveredCount_cons_send]
    have hac : (a == c) = false := by
      have hne : a ≠ c := fun he => hc (he ▸ List.mem_cons_self a as)
      simp [hne]
    rw [if_neg (by simp [hac])]
    simp [ih (fun hm => hc (List.mem_cons_of_mem _ hm))]

lemma deliveredCount_map_send_one (conns : List ConnId) (msg : JVal) (c : ConnId)
    (p : JVal → Bool) (hp : p msg = true) (hnd : conns.Nodup) (hc : c ∈ conns) :
    deliveredCount (conns.map (fun x => Output.send x msg)) c p = 1 := by
  induction conns with
  | nil => cases hc
  | cons a as ih =>
    rw [List.map_cons, deliveredCount_cons_send]
    rcases List.mem_cons.mp hc with hca | hcas
    · subst hca
      rw [if_pos (by simp [hp])]
      rw [deliveredCount_map_send_zero as msg c p (List.nodup_cons.mp hnd).1]
    · have hac : (a == c) = false := by
        have hne : a ≠ c := fun he => (List.nodup_cons.mp hnd).1 (he ▸ hcas)
        simp [hne]
      rw [if_neg (by simp [hac])]
      simp [ih (List.nodup_cons.mp hnd).2 hcas]

lemma deliveredCount_map_send_pfalse (msgs : List JVal) (ws c : ConnId)
    (p : JVal → Bool) (hp : ∀ m ∈ msgs, p m = false) :
    deliveredCount (msgs.map (fun m => Output.send ws m)) c p = 0 := by
  induction msgs with
  | nil => rfl
  | cons a as ih =>
    rw [List.map_cons, deliveredCount_cons_send]
    rw [if_neg (by simp [hp a (List.mem_cons_self a as)])]
    simp [ih (fun m hm => hp m (List.mem_cons_of_mem _ hm))]

lemma is_system_text_joined (user : Auth) (ts : String) :
    is_system_text (user.username ++ " entrou na sala") (joined_msg user ts) = true := by
  simp [is_system_text, joined_msg, msg_field, lookupField]

lemma is_system_text_left (user : Auth) (ts : String) :
    is_system_text (user.username ++ " saiu da sala") (left_msg user ts) = true := by
  simp [is_system_text, left_msg, msg_field, lookupField]

lemma sockets_empty_isEmpty (h : Hub) (room : RoomId) (uid : UserId) :
    sockets_empty h room uid = (socketsOf h room uid).isEmpty := by
  unfold sockets_empty socketsOf
  cases ((h.rooms_user_sockets room).getD (fun _ => none)) uid with
  | none => rfl
  | some s => rfl

lemma discard_user_socket_socketsOf_self (h : Hub) (room : RoomId) (uid : UserId)
    (ws : ConnId) :
    socketsOf (discard_user_socket h room uid ws) room uid
      = (socketsOf h room uid).filter (fun c => c ≠ ws) := by
  unfold discard_user_socket
  cases hro : h.rooms_user_sockets room with
  | none => simp [socketsOf, hro]
  | some inner =>
    dsimp only
    cases hu : inner uid with
    | none => simp [socketsOf, hro, hu]
    | some s =>
      dsimp only
      simp [socketsOf, set_user_sockets, setk_self, hro, hu]

lemma discard_conn_connsOf_self (h : Hub) (room : RoomId) (conns : List ConnId)
    (ws : ConnId) :
    connsOf (discard_conn h room conns ws) room = conns.filter (fun c => c ≠ ws) := by
  unfold discard_conn set_conns connsOf
  simp [setk_self]

/-- C1 counterexample: Alice already has a live connection (socket 1) in
`R1`, yet her second device's join still broadcasts a `system` joined
event — the code emits it on every accepted connection, not only the first. -/
theorem C1_counterexample :
    socketsOf hub1 R1 "u1" = [1] ∧
    0 < deliveredCount (websocket_connect hub1 R1 2 (some aliceA) "t2" []).2 1
      (is_system_text "alice entrou na sala") := by
  decide

/-- C1 amended: a `system` joined event is broadcast on every successful
join — delivered exactly once to every member, old and new, regardless of
whether the user already had live connections — and a `system` left event
is broadcast by a disconnect teardown exactly when it removes the user's
last live socket (delivered exactly once to each remaining member), with no
event at all when other sockets of the user remain. -/
theorem C1_amended (h : Hub) (room : RoomId) (ws : ConnId) (user : Auth)
    (ts ts2 : String)
    (hval : isUuid room = true) (hdel : room ∉ h.rooms_deleted)
    (hban : user.id ∉ bannedOf h room)
    (hnd : (connsOf h room).Nodup) (hnew : ws ∉ connsOf h room)
    (hnosys : ∀ m ∈ messagesOf h room,
      is_system_text (user.username ++ " entrou na sala") m = false) :
    (∀ c2, c2 ∈ connsOf h room ++ [ws] →
       deliveredCount (websocket_connect h room ws (some user) ts []).2 c2
         (is_system_text (user.username ++ " entrou na sala")) = 1) ∧
    (∀ conns, h.rooms_connections room = some conns → conns.Nodup →
      (((socketsOf h room user.id).filter (fun c => c ≠ ws)).isEmpty = true →
        ∀ c2, c2 ∈ conns.filter (fun c => c ≠ ws) →
          deliveredCount (websocket_disconnect h room ws user ts2 []).2 c2
            (is_system_text (user.username ++ " saiu da sala")) = 1) ∧
      (((socketsOf h room user.id).filter (fun c => c ≠ ws)).isEmpty = false →
        (websocket_disconnect h room ws user ts2 []).2 = [])) := by
  constructor
  · intro c2 hc2
    rw [websocket_connect_success h room ws user ts [] hval hdel hban]
    show deliveredCount (_ ++ _) c2 _ = 1
    rw [deliveredCount_append, broadcast_outs_nil]
    have hconns : connsOf (join_register (ensure_room h room) room ws user) room
        = connsOf h room ++ [ws] := by
      rw [join_register_connsOf, ensure_room_connsOf]
      exact set_add_of_not_mem hnew
    have hnd2 : (connsOf h room ++ [ws]).Nodup := by
      rw [List.nodup_append]
      refine ⟨hnd, List.nodup_singleton ws, ?_⟩
      intro a ha hb
      rw [List.mem_singleton] at hb
      subst hb
      exact hnew ha
    rw [hconns,
      deliveredCount_map_send_one _ _ _ _ (is_system_text_joined user ts) hnd2 hc2,
      deliveredCount_map_send_pfalse _ _ _ _ hnosys]
  · intro conns hconn hcnd
    have hkey : sockets_empty
        (discard_user_socket (discard_conn h room conns ws) room user.id ws) room user.id
        = ((socketsOf h room user.id).filter (fun c => c ≠ ws)).isEmpty := by
      rw [sockets_empty_isEmpty, discard_user_socket_socketsOf_self]
      rfl
    constructor
    · intro hemp c2 hc2
      have htr : (websocket_disconnect h room ws user ts2 []).2
          = (conns.filter (fun c => c ≠ ws)).map
              (fun x => Output.send x (left_msg user ts2)) := by
        show (websocket_leave h room ws user ts2 []).2 = _
        rw [websocket_leave_eq_core h room ws user ts2 [] conns hconn]
        simp only [websocket_leave_core]
        rw [if_pos (by rw [hkey]; exact hemp)]
        rw [broadcast_outs_nil]
        rw [show connsOf (pop_user_meta (discard_user_socket
            (discard_conn h room conns ws) room user.id ws) room user.id) room
            = conns.filter (fun c => c ≠ ws) from by
          rw [connsOf, pop_user_meta_connections, discard_user_socket_connections]
          exact discard_conn_connsOf_self h room conns ws]
      rw [htr]
      exact deliveredCount_map_send_one _ _ _ _ (is_system_text_left user ts2)
        (hcnd.filter _) hc2
    · intro hemp
      show (websocket_leave h room ws user ts2 []).2 = _
      rw [websocket_leave_eq_core h room ws user ts2 [] conns hconn]
      simp only [websocket_leave_core]
      rw [if_neg (by rw [hkey, hemp]; simp)]

/-- Witness for C1 at concrete inputs: a third socket for Alice (who
already has sockets 1 and 2) still delivers the joined event to socket 1
exactly once, and disconnecting a non-last socket emits no left event. -/
theorem C1_amended_witness :
    socketsOf hubA2 R1 "u1" = [1, 2] ∧
    deliveredCount (websocket_connect hubA2 R1 3 (some aliceA) "t6" []).2 1
      (is_system_text "alice entrou na sala") = 1 ∧
    (websocket_disconnect hubA2 R1 3 aliceA "t7" []).2 = [] := by
  refine ⟨by decide, ?_, ?_⟩
  · exact (C1_amended hubA2 R1 3 aliceA "t6" "t7" (by decide) (by decide) (by decide)
      (by decide) (by decide) (by decide)).1 1 (by decide)
  · exact ((C1_amended hubA2 R1 3 aliceA "t6" "t7" (by decide) (by decide) (by decide)
      (by decide) (by decide) (by decide)).2 [1, 2] rfl (by decide)).2 (by decide)
